import Mathlib

/-!
Verification development for the berlinHack dual-session tool-call
orchestration core.

The embedding follows the source of `src/components/altair/Altair.tsx`
(the tool-call dispatcher `onToolCall`, its helpers `downloadVideoAsBlob`,
`parseImageResponse`, `captureFrameFromWebcam` and the request-lifecycle
state), `src/components/control-tray/ControlTray.tsx` (audio/video fan-out
to the two realtime sessions) and `src/lib/media-client.ts`.

JavaScript-specific behaviour is modelled explicitly:
  * truthiness tests on strings (`if (fc.id)`, `if (result?.url)`, ...)
    treat the empty string like `undefined`; `jsTruthyStr` models this;
  * the regular expressions `/^data:([^;]+);base64,(.+)$/` and
    `/^data:([^;]+)/` are modelled character-by-character (in JavaScript
    `.` does not match line terminators and `$` anchors at the end of the
    string when the `m` flag is absent);
  * the React closure captured by the `toolcall` handler reads
    `lastGeneratedVideo` / `lastGeneratedImage` from a `Snapshot` fixed at
    the start of a batch, while `set*` calls write the threaded state;
  * effects on the environment (network calls of the media client, the
    video blob download, webcam capture, `Date.now()`) are supplied by a
    `MediaEnv` record, and the externally visible actions of a batch are
    collected in an event trace, with the single `sendToolResponse` call
    of a batch appearing as the trailing `Event.send`.
-/

namespace BerlinHack

/-- JavaScript string truthiness: `undefined` and `""` are falsy. -/
def jsTruthyStr (o : Option String) : Option String :=
  match o with
  | none => none
  | some s => bif s == "" then none else some s

/-- `x?.message || dflt` on a caught error whose message is `e`. -/
def jsMessageOr (e dflt : String) : String :=
  bif e == "" then dflt else e

/-- `String(x)` of an optional string, as used in a template literal:
`undefined` prints as `"undefined"`. -/
def jsStringOrUndefined (o : Option String) : String :=
  match o with
  | none => "undefined"
  | some s => s

/-! ## Data-URI parsing (Altair.tsx, generate_video / webcam branches) -/

/-- The characters of `"data:"`. -/
def dataPrefix : List Char := "data:".data

/-- The characters of `";base64,"`. -/
def b64Tag : List Char := ";base64,".data

/-- The characters of `"image/jpeg"`. -/
def jpegData : List Char := "image/jpeg".data

/-- JavaScript line terminators, which `.` does not match. -/
def lineTerms : List Char := ['\n', '\r', '\u2028', '\u2029']

/-- Semantics of `s.match(/^data:([^;]+);base64,(.+)$/)`: the mime group is
everything from after `"data:"` up to the first `';'` (nonempty), which must
be followed by the literal `";base64,"`, and the payload group is the
nonempty remainder, which may not contain a line terminator. -/
def strictDataUriMatch (s : List Char) : Option (List Char × List Char) :=
  if dataPrefix.isPrefixOf s then
    let rest := s.drop 5
    let m := rest.takeWhile (fun c => c != ';')
    let r2 := rest.dropWhile (fun c => c != ';')
    if m.isEmpty then none
    else if b64Tag.isPrefixOf r2 then
      let p := r2.drop 8
      if p.isEmpty then none
      else if p.any (fun c => lineTerms.contains c) then none
      else some (m, p)
    else none
  else none

/-- Semantics of `header.match(/^data:([^;]+)/)`: `header` must start with
`"data:"` followed by at least one non-`';'` character; the group is the
run of non-`';'` characters after the prefix. -/
def mimeHeaderMatch (h : List Char) : Option (List Char) :=
  if dataPrefix.isPrefixOf h then
    let m := (h.drop 5).takeWhile (fun c => c != ';')
    if m.isEmpty then none else some m
  else none

/-- `indexOf(",")` plus the two `substring` calls: splits a string at its
first comma into (part before, part after), when a comma exists. -/
def splitAtFirstComma : List Char → Option (List Char × List Char)
  | [] => none
  | c :: t =>
    if c = ',' then some ([], t)
    else
      match splitAtFirstComma t with
      | some (h, r) => some (c :: h, r)
      | none => none

/-- The image-argument decode of the `generate_video` branch
(Altair.tsx lines 514-535), on character lists.  Returns
(declared mime type, decoded payload), each possibly undefined. -/
def parseImageArgL (s : List Char) : Option (List Char) × Option (List Char) :=
  bif dataPrefix.isPrefixOf s then
    match strictDataUriMatch s with
    | some (m, p) => (some m, some p)
    | none =>
      match splitAtFirstComma s with
      | some (h, r) => bif h.isEmpty then (none, none) else (mimeHeaderMatch h, some r)
      | none => (none, none)
  else (some jpegData, some s)

/-- String-level wrapper of `parseImageArgL`. -/
def parseImageArg (s : String) : Option String × Option String :=
  let r := parseImageArgL s.data
  (r.1.map String.mk, r.2.map String.mk)

/-- The claim C6 decode, written from the spec sentence: strict canonical
match first; on mismatch a fallback at the first comma; and every input
with no comma at all is taken whole as payload with mime `image/jpeg`. -/
def dataUriDecodeSpecL (s : List Char) : Option (List Char) × Option (List Char) :=
  match strictDataUriMatch s with
  | some (m, p) => (some m, some p)
  | none =>
    match splitAtFirstComma s with
    | some (h, r) => (mimeHeaderMatch h, some r)
    | none => (some jpegData, some s)

/-- String-level wrapper of `dataUriDecodeSpecL`. -/
def dataUriDecodeSpecS (s : String) : Option String × Option String :=
  let r := dataUriDecodeSpecL s.data
  (r.1.map String.mk, r.2.map String.mk)

/-- The amended C6 decode: the two-stage parse runs only for strings
starting with `"data:"` (a `"data:"`-prefixed string with no comma yields
neither mime nor payload); any other string is taken whole as payload with
mime `image/jpeg`. -/
def dataUriDecodeAmendedL (s : List Char) : Option (List Char) × Option (List Char) :=
  bif dataPrefix.isPrefixOf s then
    match strictDataUriMatch s with
    | some (m, p) => (some m, some p)
    | none =>
      match splitAtFirstComma s with
      | some (h, r) => (mimeHeaderMatch h, some r)
      | none => (none, none)
  else (some jpegData, some s)

/-- String-level wrapper of `dataUriDecodeAmendedL`. -/
def dataUriDecodeAmendedS (s : String) : Option String × Option String :=
  let r := dataUriDecodeAmendedL s.data
  (r.1.map String.mk, r.2.map String.mk)

/-- `if (imageBase64Arg) { ...parse... }`: an absent or empty image argument
is skipped, otherwise it is decoded with the two-branch parse. -/
def parsedImageArgs (o : Option String) : Option String × Option String :=
  match jsTruthyStr o with
  | none => (none, none)
  | some s => parseImageArg s

/-- The webcam-frame decode of the `generate_video_from_webcam` branch
(Altair.tsx lines 567-590): same stages, but the mime defaults to
`image/jpeg` when the fallback finds no mime token, and unparseable input
throws. -/
def parseFrameDataURI (s : String) : Except String (String × String) :=
  bif dataPrefix.isPrefixOf s.data then
    match strictDataUriMatch s.data with
    | some (m, p) => .ok (String.mk m, String.mk p)
    | none =>
      match splitAtFirstComma s.data with
      | some (h, r) =>
        bif h.isEmpty then .error "Could not parse captured frame data"
        else .ok ((mimeHeaderMatch h).elim "image/jpeg" String.mk, String.mk r)
      | none => .error "Could not parse captured frame data"
  else .error "Invalid frame data format"

/-! ## Data model of the dispatcher state (Altair.tsx) -/

/-- `RequestStatus` of Altair.tsx. -/
inductive RequestStatus
  | pending
  | ready
  | error
deriving DecidableEq

/-- The result payload of a completed media-client call. -/
structure VideoResult where
  uri : Option String := none
  url : Option String := none
deriving DecidableEq

/-- Opaque speech response. -/
structure SpeechResult where
  data : String := ""
deriving DecidableEq

/-- `inlineData` of a generate-content part. -/
structure InlineData where
  data : Option String := none
  mimeType : Option String := none
deriving DecidableEq

/-- A part of a generate-content candidate. -/
structure ImgPart where
  inlineData : Option InlineData := none
deriving DecidableEq

/-- `content` of a generate-content candidate. -/
structure ImgContent where
  parts : List ImgPart := []
deriving DecidableEq

/-- A generate-content candidate. -/
structure ImgCandidate where
  content : Option ImgContent := none
deriving DecidableEq

/-- The structured generate-content response inspected by
`parseImageResponse` (the `response.candidates` shape; the code also
accepts a JSON string carrying the same shape, which this embedding does
not re-parse). -/
structure GenContent where
  candidates : List ImgCandidate := []
deriving DecidableEq

/-- `parseImageResponse` of Altair.tsx on the structured response: walks
`candidates[0].content.parts[0].inlineData` and yields a data URI when
both `data` and `mimeType` are truthy, `null` otherwise. -/
def parseImageResponse (r : GenContent) : Option String :=
  match r.candidates with
  | [] => none
  | c :: _ =>
    match c.content with
    | none => none
    | some ct =>
      match ct.parts with
      | [] => none
      | p :: _ =>
        match p.inlineData with
        | none => none
        | some idt =>
          match jsTruthyStr idt.data, jsTruthyStr idt.mimeType with
          | some d, some m => some ("data:" ++ m ++ ";base64," ++ d)
          | _, _ => none

/-- The `result` stored into a ready `RequestState`; `undef` models the
`let result: any` that no branch of the name dispatch assigned. -/
inductive OpResult
  | video (r : VideoResult)
  | image (r : GenContent)
  | speech (r : SpeechResult)
  | undef
deriving DecidableEq

/-- `result?.url` (truthy) of an opaque result. -/
def resultUrl (res : OpResult) : Option String :=
  match res with
  | .video r => jsTruthyStr r.url
  | _ => none

/-- `RequestState` of Altair.tsx. -/
structure RequestState where
  status : RequestStatus
  result : Option OpResult := none
  error : Option String := none
  requestId : String
deriving DecidableEq

/-- The kind of a displayed media item. -/
inductive MediaKind
  | video
  | image
deriving DecidableEq

/-- `MediaDisplay` of Altair.tsx. -/
structure MediaDisplay where
  type : MediaKind
  url : String
  visible : Bool
deriving DecidableEq

/-- `lastGeneratedVideo`: source uri plus the lazily cached blob URL. -/
structure VideoArtifact where
  uri : String
  blobUrl : Option String := none
deriving DecidableEq

/-- The React state owned by the Altair component that the dispatcher
reads or writes. `requestStates` models the `Map` by an insertion-ordered
association list. -/
structure OrchState where
  jsonString : Option String := none
  requestStates : List (String × RequestState) := []
  mediaDisplay : Option MediaDisplay := none
  lastGeneratedVideo : Option VideoArtifact := none
  lastGeneratedImage : Option String := none
  isLoadingMedia : Bool := false
  isGeneratingMedia : Bool := false
  generatingMediaType : Option MediaKind := none
deriving DecidableEq

/-- The values of `lastGeneratedVideo` / `lastGeneratedImage` captured by
the `toolcall` handler closure for the duration of one batch. -/
structure Snapshot where
  lastVideo : Option VideoArtifact
  lastImage : Option String
deriving DecidableEq

/-- The snapshot the effect closure holds when a batch arrives. -/
def snapshotOf (st : OrchState) : Snapshot :=
  ⟨st.lastGeneratedVideo, st.lastGeneratedImage⟩

/-- `Map.set`: replaces the value of an existing key in place, otherwise
appends; never removes an entry. -/
def mapSet (m : List (String × RequestState)) (k : String) (v : RequestState) :
    List (String × RequestState) :=
  match m.any (fun p => p.1 == k) with
  | true => m.map (fun p => match p.1 == k with | true => (k, v) | false => p)
  | false => m ++ [(k, v)]

/-- The external world of one batch: the media client operations, the
video download, webcam capture and `Date.now()`. -/
structure MediaEnv where
  mediaClientInitialized : Bool := true
  generateVideo : Option String → Option String → Option String → Except String VideoResult
  generateImage : Option String → Except String GenContent
  generateSpeech : Option String → Except String SpeechResult
  downloadVideo : String → Except String String
  captureFrame : Option String := none
  now : Nat := 0

/-- Arguments of a tool call; absent properties read as `undefined`. -/
structure Args where
  json_graph : Option String := none
  prompt : Option String := none
  imageBase64 : Option String := none
  text : Option String := none
  mediaType : Option String := none
deriving DecidableEq

/-- A tool call of a batch. -/
structure FunctionCall where
  id : Option String
  name : String
  args : Args
deriving DecidableEq

/-- The `response.output` object of a per-call response. -/
inductive Output
  | success (message : Option String)
  | failure (error : String)
  | ready (requestId : String) (message : String)
  | error (requestId : String) (error : String) (message : String)
deriving DecidableEq

/-- One entry of the outgoing `functionResponses` batch. -/
structure FunctionResponse where
  id : String
  name : String
  output : Output
deriving DecidableEq

/-- Externally visible actions of a single call handler. -/
inductive CallEvent
  | recordSet (rid : String) (status : RequestStatus)
  | notify (msg : String)
  | download (uri : String)
  | videoGen
  | imageGen
  | speechGen
deriving DecidableEq

/-- Externally visible actions of a whole batch. -/
inductive Event
  | call (e : CallEvent)
  | send (rs : List FunctionResponse)
deriving DecidableEq

/-- Whether an event is the combined `sendToolResponse` call. -/
def isSend : Event → Bool
  | .send _ => true
  | _ => false

/-- The uris passed to `downloadVideoAsBlob` within a trace. -/
def downloadsOf (evs : List Event) : List String :=
  evs.filterMap fun e =>
    match e with
    | .call (.download u) => some u
    | _ => none

/-- The record transitions a trace performs on one requestId. -/
def recordTrace (evs : List CallEvent) (rid : String) : List RequestStatus :=
  evs.filterMap fun e =>
    match e with
    | .recordSet r s => (match r == rid with | true => some s | false => none)
    | _ => none

/-! ## Notification texts (Altair.tsx) -/

/-- Notification sent when `generate_video` starts. -/
def gvStartMsg : String :=
  "I\x27m now creating a special cartoon video for you! This will take a moment, so let me tell you more while we wait..."

/-- Notification sent when `generate_video_from_webcam` starts. -/
def gvwStartMsg : String :=
  "I\x27m creating a special cartoon from what you\x27re showing me! This is so exciting! While we wait, let me tell you about what makes this so cool..."

/-- Notification sent when `generate_image` starts. -/
def giStartMsg : String :=
  "I\x27m drawing a special picture for you right now! It\x27ll be ready in just a moment..."

/-- Notification sent when a `generate_video` result carries a uri. -/
def gvReadyMsg : String :=
  "Wonderful news! The cartoon video is ready! Let me show it to you!"

/-- Notification sent when a webcam video result carries a uri. -/
def gvwReadyMsg : String :=
  "Amazing! Your personalized cartoon is ready! I\x27m so excited to show you!"

/-- Notification sent when a generated image parses. -/
def giReadyMsg : String :=
  "The picture is ready! Let me show it to you!"

/-- Notification sent after a video is displayed. -/
def videoShownMsg : String :=
  "The cartoon video is now displayed on screen! Describe it to the child and ask if they like it."

/-- Notification sent after an image is displayed. -/
def imageShownMsg : String :=
  "The picture is now displayed on screen! Describe it to the child and continue explaining."

/-- Notification sent by `hide_media`. -/
def mediaHiddenMsg : String :=
  "The media has been hidden from the screen."

/-- Notification sent from the catch block of a generation call. -/
def genFailMsg (m : String) : String :=
  "Oops! Something went wrong while creating the media: " ++ m ++ ". But don\x27t worry, let me continue explaining!"

/-! ## The per-call handlers -/

/-- `requestId = name_id_Date.now()`. -/
def requestId (name cid : String) (now : Nat) : String :=
  name ++ "_" ++ cid ++ "_" ++ toString now

/-- A record freshly created for a dispatched call. -/
def pendingRec (rid : String) : RequestState :=
  ⟨.pending, none, none, rid⟩

/-- The record stored when the operation resolved. -/
def readyRec (rid : String) (res : OpResult) : RequestState :=
  ⟨.ready, some res, none, rid⟩

/-- The record stored when the operation threw. -/
def errorRec (rid e : String) : RequestState :=
  ⟨.error, none, some e, rid⟩

/-- The response message of a ready generation call: video calls whose
result has a truthy `url` report it, all others report the generic text. -/
def readyMessage (name : String) (res : OpResult) : String :=
  bif name == "generate_video" || name == "generate_video_from_webcam" then
    match resultUrl res with
    | some u => "Video generation complete. URL: " ++ u
    | none => "Request completed successfully"
  else "Request completed successfully"

/-- The `show_media` handler (Altair.tsx lines 413-472): reads the closure
snapshot, lazily downloads and caches the blob URL for video, replaces the
display state, or answers a structured failure when nothing of the
requested kind was generated. -/
def showMediaOut (env : MediaEnv) (snap : Snapshot) (st : OrchState) (mt : Option String) :
    Output × OrchState × List CallEvent :=
  match mt, snap.lastVideo, snap.lastImage with
  | some "video", some v, _ =>
    let st1 := { st with isLoadingMedia := true }
    match v.blobUrl with
    | some b =>
      (.success (some "Video is now displayed on screen."),
       { st1 with mediaDisplay := some ⟨.video, b, true⟩, isLoadingMedia := false },
       [.notify videoShownMsg])
    | none =>
      match env.downloadVideo v.uri with
      | .ok b =>
        (.success (some "Video is now displayed on screen."),
         { st1 with lastGeneratedVideo := some ⟨v.uri, some b⟩,
                    mediaDisplay := some ⟨.video, b, true⟩, isLoadingMedia := false },
         [.download v.uri, .notify videoShownMsg])
      | .error e =>
        (.failure (jsMessageOr e "Failed to show media"),
         { st1 with isLoadingMedia := false },
         [.download v.uri])
  | some "image", _, some img =>
    (.success (some "Image is now displayed on screen."),
     { st with mediaDisplay := some ⟨.image, img, true⟩ },
     [.notify imageShownMsg])
  | _, _, _ =>
    (.failure ("No " ++ jsStringOrUndefined mt ++ " has been generated yet."), st, [])

/-- The try-block of a generation call (Altair.tsx lines 499-627): runs the
branch selected by the call name, returning the thrown message or the
opaque result, together with the state and the trace accumulated before
the return or throw. -/
def tryOperation (env : MediaEnv) (st : OrchState) (fc : FunctionCall) :
    Except String OpResult × OrchState × List CallEvent :=
  bif fc.name == "generate_video" then
    let st1 := { st with isGeneratingMedia := true, generatingMediaType := some .video }
    let ev1 : List CallEvent := [.notify gvStartMsg]
    let pm := parsedImageArgs fc.args.imageBase64
    match env.generateVideo fc.args.prompt pm.1 pm.2 with
    | .error e => (.error e, st1, ev1 ++ [.videoGen])
    | .ok r =>
      match jsTruthyStr r.uri with
      | some u =>
        (.ok (.video r),
         { st1 with lastGeneratedVideo := some ⟨u, none⟩,
                    isGeneratingMedia := false, generatingMediaType := none },
         ev1 ++ [.videoGen, .notify gvReadyMsg])
      | none => (.ok (.video r), st1, ev1 ++ [.videoGen])
  else bif fc.name == "generate_video_from_webcam" then
    let st1 := { st with isGeneratingMedia := true, generatingMediaType := some .video }
    let ev1 : List CallEvent := [.notify gvwStartMsg]
    match jsTruthyStr env.captureFrame with
    | none =>
      (.error "Could not capture frame from webcam. Make sure the webcam is active and showing video.",
       st1, ev1)
    | some frame =>
      match parseFrameDataURI frame with
      | .error e => (.error e, st1, ev1)
      | .ok (b64, mime) =>
        match env.generateVideo fc.args.prompt (some b64) (some mime) with
        | .error e => (.error e, st1, ev1 ++ [.videoGen])
        | .ok r =>
          match jsTruthyStr r.uri with
          | some u =>
            (.ok (.video r),
             { st1 with lastGeneratedVideo := some ⟨u, none⟩,
                        isGeneratingMedia := false, generatingMediaType := none },
             ev1 ++ [.videoGen, .notify gvwReadyMsg])
          | none => (.ok (.video r), st1, ev1 ++ [.videoGen])
  else bif fc.name == "generate_image" then
    let st1 := { st with isGeneratingMedia := true, generatingMediaType := some .image }
    let ev1 : List CallEvent := [.notify giStartMsg]
    match env.generateImage fc.args.prompt with
    | .error e => (.error e, st1, ev1 ++ [.imageGen])
    | .ok r =>
      match jsTruthyStr (parseImageResponse r) with
      | some dataUri =>
        (.ok (.image r),
         { st1 with lastGeneratedImage := some dataUri,
                    isGeneratingMedia := false, generatingMediaType := none },
         ev1 ++ [.imageGen, .notify giReadyMsg])
      | none => (.ok (.image r), st1, ev1 ++ [.imageGen])
  else bif fc.name == "generate_speech" then
    match env.generateSpeech fc.args.text with
    | .error e => (.error e, st, [.speechGen])
    | .ok r => (.ok (.speech r), st, [.speechGen])
  else
    (.ok .undef, st, [])

/-- The fall-through arm of the dispatch (Altair.tsx lines 485-701): any
call that is not `render_altair`, `show_media` or `hide_media` creates a
pending record, runs the try-block when the media client is initialized
and stores the resulting ready or error record; with no client it answers
an error but leaves the record pending. -/
def generationOut (env : MediaEnv) (st : OrchState) (fc : FunctionCall) (cid : String) :
    Output × OrchState × List CallEvent :=
  let rid := requestId fc.name cid env.now
  let st1 := { st with requestStates := mapSet st.requestStates rid (pendingRec rid) }
  match env.mediaClientInitialized with
  | true =>
    let t := tryOperation env st1 fc
    match t.1 with
    | .ok res =>
      (.ready rid (readyMessage fc.name res),
       { t.2.1 with requestStates := mapSet t.2.1.requestStates rid (readyRec rid res) },
       .recordSet rid .pending :: t.2.2 ++ [.recordSet rid .ready])
    | .error e =>
      let msg := jsMessageOr e "Unknown error"
      (.error rid msg "Request failed",
       { t.2.1 with isGeneratingMedia := false, generatingMediaType := none,
                    requestStates := mapSet t.2.1.requestStates rid (errorRec rid msg) },
       .recordSet rid .pending :: t.2.2 ++ [.recordSet rid .error, .notify (genFailMsg msg)])
  | false =>
    (.error rid "MediaClient not initialized" "Request failed", st1,
     [.recordSet rid .pending])

/-- The name dispatch of one id-bearing call, producing its output, the
state after its effects and its trace. -/
def resolveOut (env : MediaEnv) (snap : Snapshot) (st : OrchState) (fc : FunctionCall)
    (cid : String) : Output × OrchState × List CallEvent :=
  bif fc.name == "render_altair" then
    (.success none, st, [])
  else bif fc.name == "show_media" then
    showMediaOut env snap st fc.args.mediaType
  else bif fc.name == "hide_media" then
    (.success (some "Media has been hidden from screen."),
     { st with mediaDisplay := none },
     [.notify mediaHiddenMsg])
  else
    generationOut env st fc cid

/-- The full per-call resolution: every arm answers with the id and name
of the originating call. -/
structure CallOutcome where
  resp : FunctionResponse
  st : OrchState
  events : List CallEvent
deriving DecidableEq

/-- Resolve one id-bearing call. -/
def resolveCall (env : MediaEnv) (snap : Snapshot) (st : OrchState) (fc : FunctionCall)
    (cid : String) : CallOutcome :=
  let r := resolveOut env snap st fc cid
  ⟨⟨cid, fc.name, r.1⟩, r.2.1, r.2.2⟩

/-- `toolCall.functionCalls.filter((fc) => fc.id)`: a call participates in
the response batch only when its id is present and truthy. -/
def hasId (fc : FunctionCall) : Bool :=
  match fc.id with
  | some s => s != ""
  | none => false

/-- Resolve the calls of a batch in order, dropping calls without a truthy
id; the closure snapshot is fixed, the state is threaded. -/
def runCalls (env : MediaEnv) (snap : Snapshot) :
    OrchState → List FunctionCall → List FunctionResponse × OrchState × List CallEvent
  | st, [] => ([], st, [])
  | st, fc :: rest =>
    match fc.id with
    | some cid =>
      match cid != "" with
      | true =>
        let o := resolveCall env snap st fc cid
        let t := runCalls env snap o.st rest
        (o.resp :: t.1, t.2.1, o.events ++ t.2.2)
      | false => runCalls env snap st rest
    | none => runCalls env snap st rest

/-- The result of one `toolcall` batch. -/
structure BatchResult where
  responses : List FunctionResponse
  finalState : OrchState
  events : List Event
deriving DecidableEq

/-- The side channel run before the per-call map (Altair.tsx lines
389-396): the first `render_altair` call of the batch stores its graph
JSON, id or no id. -/
def batchInitState (st : OrchState) (calls : List FunctionCall) : OrchState :=
  match calls.find? (fun fc => fc.name == "render_altair") with
  | some fc => { st with jsonString := fc.args.json_graph }
  | none => st

/-- The per-call resolutions of a batch together with the state they leave
behind and their call-level trace. -/
def batchRun (env : MediaEnv) (st : OrchState) (calls : List FunctionCall) :
    List FunctionResponse × OrchState × List CallEvent :=
  runCalls env (snapshotOf st) (batchInitState st calls) calls

/-- The `onToolCall` handler (Altair.tsx lines 384-709) on a batch that
carries a list of calls: the resolved batch plus the single trailing
combined `sendToolResponse` carrying every response. -/
def onToolCall (env : MediaEnv) (st : OrchState) (calls : List FunctionCall) : BatchResult :=
  let t := batchRun env st calls
  ⟨t.1, t.2.1, t.2.2.map Event.call ++ [Event.send t.1]⟩

/-! ## Media Operation Client: video generation with long-polling

Modelled from the spec: the four-argument `MediaClient.generateVideo`
called from Altair.tsx (prompt, optional starting-image bytes and mime
type, api key) is not present under `src` — the `media-client.ts` there
carries an older single-argument, single-shot `generateVideo` and no
`generateImage`, against which the Altair.tsx call sites would not even
type-check.  Spec §4.1: the operation submits a generation request; while
the backend reports the operation as not yet complete the caller re-polls
on a fixed 10-second interval; once done, it fails with `GenerationFailed`
when the completed operation reports no output or the output lacks a
retrievable reference, and otherwise returns the source uri of the output. -/

/-- Failure of the modelled video generation. -/
inductive GenError
  | generationFailed
deriving DecidableEq

/-- One observable step of the modelled video generation. -/
inductive VideoStep
  | submit
  | wait (seconds : Nat)
  | poll
deriving DecidableEq

/-- Modelled from the spec: the backend of one video generation — how many
times it answers "not done yet", and the retrievable output reference (if
any) of the completed operation. -/
structure VideoBackendModel where
  pollsUntilDone : Nat
  output : Option String
deriving DecidableEq

/-- Modelled from the spec: the poll loop — while the operation is not
done, wait 10 seconds and poll again; once done, a missing output
reference is `GenerationFailed`. -/
def videoPollLoop (output : Option String) : Nat → List VideoStep × Except GenError String
  | 0 => ([], match output with | some u => .ok u | none => .error .generationFailed)
  | Nat.succ n =>
    let r := videoPollLoop output n
    (VideoStep.wait 10 :: VideoStep.poll :: r.1, r.2)

/-- Modelled from the spec: `generateVideo(prompt, image?)` — submit, poll
to completion, and either the source uri or `GenerationFailed`. -/
def generateVideoSpec (_prompt : Option String) (_image : Option (String × String))
    (b : VideoBackendModel) : List VideoStep × Except GenError String :=
  let r := videoPollLoop b.output b.pollsUntilDone
  (VideoStep.submit :: r.1, r.2)

/-! ## ControlTray: fan-out of captured input to both sessions -/

/-- A realtime input chunk (`sendRealtimeInput` payload). -/
structure RtChunk where
  mimeType : String
  data : String
deriving DecidableEq

/-- The audio chunk built by the `onData` handler of ControlTray. -/
def audioChunk (b64 : String) : RtChunk :=
  ⟨"audio/pcm;rate=16000", b64⟩

/-- `onData`: each captured audio chunk is sent to the speaking client and
to the function client. -/
def onAudioData (b64 : String) : List (String × RtChunk) :=
  [("speaking", audioChunk b64), ("function", audioChunk b64)]

/-- The audio recorder runs iff `connected && !muted` (ControlTray lines
209-213); muting therefore suppresses audio capture and forwarding. -/
def audioRecorderActive (connected muted : Bool) : Bool :=
  connected && !muted

/-- The video chunk built by `sendVideoFrame`. -/
def videoChunk (b64 : String) : RtChunk :=
  ⟨"image/jpeg", b64⟩

/-- The re-arm delay of `sendVideoFrame`: `1000 / 0.5` milliseconds. -/
def videoFrameDelayMs : ℚ := 1000 / (1 / 2)

/-- The delay a 2-frames-per-second cadence would use. -/
def claimedTwoFpsDelayMs : ℚ := 1000 / 2

/-- One run of `sendVideoFrame` (ControlTray lines 227-250): when the
scaled canvas has positive extent the frame goes to both clients, and
while connected the timer re-arms after `videoFrameDelayMs`.  Muting does
not enter this code path at all. -/
def sendVideoFrame (connected : Bool) (w h : Nat) (frame : String) :
    List (String × RtChunk) × Option ℚ :=
  (if 0 < w + h then [("speaking", videoChunk frame), ("function", videoChunk frame)] else [],
   if connected then some videoFrameDelayMs else none)

/-! ## Concrete fixtures used by witnesses and counterexamples -/

/-- A `generate_video` call. -/
def gvCall (cid p : String) : FunctionCall :=
  ⟨some cid, "generate_video", { prompt := some p }⟩

/-- A `show_media`(video) call. -/
def showVideoCall (cid : String) : FunctionCall :=
  ⟨some cid, "show_media", { mediaType := some "video" }⟩

/-- The initial orchestration state. -/
def st0 : OrchState := {}

/-- An environment whose backend succeeds on everything except the prompt
`"bad"`, which makes the video operation throw `"boom"`. -/
def envW : MediaEnv := {
  generateVideo := fun p _ _ =>
    if p == some "bad" then .error "boom"
    else .ok { uri := some "http://video", url := some "http://url" },
  generateImage := fun _ => .ok {},
  generateSpeech := fun _ => .ok {},
  downloadVideo := fun _ => .ok "blob:one",
  captureFrame := none,
  now := 7 }

/-- `envW` with the media client left uninitialized (no api key). -/
def envNoClient : MediaEnv := { envW with mediaClientInitialized := false, now := 0 }

/-- A state holding a generated video whose blob URL is not yet cached. -/
def stV : OrchState := { lastGeneratedVideo := some ⟨"http://video", none⟩ }

/-- Whether a per-call output is an error-shaped response (an entry of the
batch marked as an error). -/
def isErrorOutput : Output → Bool
  | .error _ _ _ => true
  | .failure _ => true
  | _ => false

end BerlinHack

namespace BerlinHack

/-! ## Helper lemmas -/

theorem lookup_replace_self (k : String) (v : RequestState) :
    ∀ m : List (String × RequestState), m.any (fun p => p.1 == k) = true →
      (m.map (fun p => match p.1 == k with | true => (k, v) | false => p)).lookup k = some v := by
  intro m
  induction m with
  | nil => intro h; simp at h
  | cons a t ih =>
    obtain ⟨k1, v1⟩ := a
    intro h
    cases hb : (k1 == k) with
    | true =>
      simp only [List.map_cons, hb, List.lookup, beq_self_eq_true]
    | false =>
      have hk : (k == k1) = false := by
        rw [beq_eq_false_iff_ne] at hb ⊢; exact Ne.symm hb
      simp only [List.any_cons, hb, Bool.false_or] at h
      simp only [List.map_cons, hb, List.lookup, hk, ih h]

theorem lookup_append_single_self (k : String) (v : RequestState) :
    ∀ m : List (String × RequestState), m.any (fun p => p.1 == k) = false →
      (m ++ [(k, v)]).lookup k = some v := by
  intro m
  induction m with
  | nil => intro _; simp [List.lookup]
  | cons a t ih =>
    obtain ⟨k1, v1⟩ := a
    intro h
    simp only [List.any_cons, Bool.or_eq_false_iff] at h
    have hk : (k == k1) = false := by
      rw [beq_eq_false_iff_ne] at h ⊢
      have := h.1; exact fun hc => this hc.symm
    simp only [List.cons_append, List.lookup, hk, List.append_eq, ih h.2]

theorem lookup_mapSet_self (m : List (String × RequestState)) (k : String) (v : RequestState) :
    (mapSet m k v).lookup k = some v := by
  unfold mapSet
  cases hx : m.any (fun p => p.1 == k) with
  | true => exact lookup_replace_self k v m hx
  | false => exact lookup_append_single_self k v m hx

theorem lookup_replace_ne (k k' : String) (v : RequestState) (h : k' ≠ k) :
    ∀ m : List (String × RequestState),
      (m.map (fun p => match p.1 == k with | true => (k, v) | false => p)).lookup k'
        = m.lookup k' := by
  intro m
  induction m with
  | nil => rfl
  | cons a t ih =>
    obtain ⟨k1, v1⟩ := a
    cases hb : (k1 == k) with
    | true =>
      have h1 : (k' == k) = false := by rw [beq_eq_false_iff_ne]; exact h
      have h2 : (k' == k1) = false := by
        rw [beq_iff_eq] at hb; rw [hb]; exact h1
      simp only [List.map_cons, hb, List.lookup, h1, h2, ih]
    | false =>
      simp only [List.map_cons, hb, List.lookup]
      cases hx : (k' == k1) <;> simp only [ih]

theorem lookup_append_single_ne (k k' : String) (v : RequestState) (h : k' ≠ k) :
    ∀ m : List (String × RequestState), (m ++ [(k, v)]).lookup k' = m.lookup k' := by
  intro m
  induction m with
  | nil =>
    have h1 : (k' == k) = false := by rw [beq_eq_false_iff_ne]; exact h
    simp [List.lookup, h1]
  | cons a t ih =>
    obtain ⟨k1, v1⟩ := a
    simp only [List.cons_append, List.lookup, List.append_eq]
    cases hx : (k' == k1) <;> simp only [ih]

theorem lookup_mapSet_ne (m : List (String × RequestState)) (k k' : String) (v : RequestState)
    (h : k' ≠ k) : (mapSet m k v).lookup k' = m.lookup k' := by
  unfold mapSet
  cases hx : m.any (fun p => p.1 == k) with
  | true => exact lookup_replace_ne k k' v h m
  | false => exact lookup_append_single_ne k k' v h m

theorem requestId_ne_of_cid_ne (n : String) (now : Nat) {c1 c2 : String} (h : c1 ≠ c2) :
    requestId n c1 now ≠ requestId n c2 now := by
  intro he
  apply h
  have hd := congrArg String.data he
  simp only [requestId, String.data_append] at hd
  have h1 := List.append_cancel_right hd
  have h2 := List.append_cancel_right h1
  have h3 := List.append_cancel_left h2
  exact String.ext h3

theorem resolveCall_resp_id (env : MediaEnv) (snap : Snapshot) (st : OrchState)
    (fc : FunctionCall) (cid : String) : (resolveCall env snap st fc cid).resp.id = cid := rfl

theorem filter_isSend_call (l : List CallEvent) : (l.map Event.call).filter isSend = [] := by
  induction l with
  | nil => rfl
  | cons a t ih => simp [isSend, ih]

theorem runCalls_resp_ids (env : MediaEnv) (snap : Snapshot) :
    ∀ (calls : List FunctionCall) (st : OrchState),
      ((runCalls env snap st calls).1).map (fun r => r.id)
        = (calls.filter hasId).map (fun c => c.id.getD "") := by
  intro calls
  induction calls with
  | nil => intro st; simp [runCalls]
  | cons fc rest ih =>
    intro st
    cases hid : fc.id with
    | none =>
      have hf : hasId fc = false := by simp [hasId, hid]
      simp [runCalls, hid, hf, ih st]
    | some cid =>
      cases hc : (cid != "") with
      | true =>
        have hf : hasId fc = true := by simp only [hasId, hid, hc]
        simp [runCalls, hid, hc, hf, resolveCall_resp_id, hid, ih]
      | false =>
        have hf : hasId fc = false := by simp only [hasId, hid, hc]
        simp [runCalls, hid, hc, hf, ih st]

/-- C1: a batch carrying a list of calls is answered with exactly one
response per truthy-id call, in order, each response carrying the id of
the originating call; calls without an id get no response; the trace
contains exactly one combined `sendToolResponse`, it carries the whole
response batch, and it comes after every per-call resolution. -/
theorem dispatcher_C1_batch_response (env : MediaEnv) (st : OrchState)
    (calls : List FunctionCall) :
    ((onToolCall env st calls).responses).length = (calls.filter hasId).length
    ∧ ((onToolCall env st calls).responses).map (fun r => r.id)
        = (calls.filter hasId).map (fun c => c.id.getD "")
    ∧ ((onToolCall env st calls).events).filter isSend
        = [Event.send (onToolCall env st calls).responses]
    ∧ ((onToolCall env st calls).events).getLast?
        = some (Event.send (onToolCall env st calls).responses) := by
  have hids : ((onToolCall env st calls).responses).map (fun r => r.id)
      = (calls.filter hasId).map (fun c => c.id.getD "") :=
    runCalls_resp_ids env (snapshotOf st) calls (batchInitState st calls)
  have hev : (onToolCall env st calls).events
      = ((batchRun env st calls).2.2).map Event.call
          ++ [Event.send (onToolCall env st calls).responses] := rfl
  refine ⟨?_, hids, ?_, ?_⟩
  · have := congrArg List.length hids
    simpa [List.length_map] using this
  · rw [hev, List.filter_append, filter_isSend_call]
    simp [isSend]
  · rw [hev]
    exact List.getLast?_concat _

/-- C10: the `hide_media` handler, from any prior state, any snapshot and
any arguments, clears `MediaDisplay` and mutates nothing else of the
orchestration state (the generated artifacts and the request-state mapping
survive untouched), always answering a success response. -/
theorem dispatcher_C10_hide_frame (env : MediaEnv) (snap : Snapshot) (st : OrchState)
    (cid : String) (a : Args) :
    resolveCall env snap st ⟨some cid, "hide_media", a⟩ cid
      = ⟨⟨cid, "hide_media", .success (some "Media has been hidden from screen.")⟩,
         { st with mediaDisplay := none },
         [.notify mediaHiddenMsg]⟩ := rfl

/-- C7: a `show_media` call whose requested kind has no previously
generated artifact answers the structured failure
`success:false, error:"No <kind> has been generated yet."` and leaves the
whole orchestration state (in particular `MediaDisplay`) unchanged,
performing no download and no notification. -/
theorem dispatcher_C7_show_absent (env : MediaEnv) (st : OrchState) (cid mt : String)
    (h : (mt = "video" ∧ st.lastGeneratedVideo = none)
      ∨ (mt = "image" ∧ st.lastGeneratedImage = none)) :
    resolveCall env (snapshotOf st) st ⟨some cid, "show_media", { mediaType := some mt }⟩ cid
      = ⟨⟨cid, "show_media", .failure ("No " ++ mt ++ " has been generated yet.")⟩, st, []⟩ := by
  rcases h with ⟨rfl, hv⟩ | ⟨rfl, hi⟩
  · simp [resolveCall, resolveOut, showMediaOut, snapshotOf, hv, jsStringOrUndefined]
  · simp [resolveCall, resolveOut, showMediaOut, snapshotOf, hi, jsStringOrUndefined]

/-- C7 witness: showing a video in the initial state (no video generated)
fails with the structured error and changes nothing. -/
theorem dispatcher_C7_show_absent_witness :
    resolveCall envW (snapshotOf st0) st0 ⟨some "s", "show_media", { mediaType := some "video" }⟩ "s"
      = ⟨⟨"s", "show_media", .failure "No video has been generated yet."⟩, st0, []⟩ :=
  dispatcher_C7_show_absent envW st0 "s" "video" (Or.inl ⟨rfl, rfl⟩)

/-- C4 counterexample: an id-bearing call with the unknown name
`"mystery_tool"` is answered with a `status:"ready"` success-shaped
response, not with an error-marked entry — the claimed `UnknownTool`
error response does not happen. -/
theorem dispatcher_C4_cex :
    (onToolCall envW st0 [⟨some "7", "mystery_tool", {}⟩]).responses
      = [⟨"7", "mystery_tool", .ready "mystery_tool_7_7" "Request completed successfully"⟩]
    ∧ isErrorOutput (Output.ready "mystery_tool_7_7" "Request completed successfully") = false := by
  decide

/-- C4 amended: an id-bearing call with an unknown name is not dropped —
it is answered — but with a generic `status:"ready"` response (and a ready
`RequestRecord` holding no result) when the media client is initialized,
rather than with an `UnknownTool` error. -/
theorem dispatcher_C4_unknown_ready (env : MediaEnv) (snap : Snapshot) (st : OrchState)
    (fc : FunctionCall) (cid : String)
    (hinit : env.mediaClientInitialized = true)
    (h1 : fc.name ≠ "render_altair") (h2 : fc.name ≠ "show_media")
    (h3 : fc.name ≠ "hide_media") (h4 : fc.name ≠ "generate_video")
    (h5 : fc.name ≠ "generate_video_from_webcam") (h6 : fc.name ≠ "generate_image")
    (h7 : fc.name ≠ "generate_speech") :
    resolveCall env snap st fc cid
      = ⟨⟨cid, fc.name,
          .ready (requestId fc.name cid env.now) "Request completed successfully"⟩,
         { st with requestStates :=
             (mapSet (mapSet st.requestStates (requestId fc.name cid env.now)
                 (pendingRec (requestId fc.name cid env.now)))
               (requestId fc.name cid env.now)
               (readyRec (requestId fc.name cid env.now) OpResult.undef)) },
         [.recordSet (requestId fc.name cid env.now) .pending,
          .recordSet (requestId fc.name cid env.now) .ready]⟩ := by
  have e1 : (fc.name == "render_altair") = false := by simpa using h1
  have e2 : (fc.name == "show_media") = false := by simpa using h2
  have e3 : (fc.name == "hide_media") = false := by simpa using h3
  have e4 : (fc.name == "generate_video") = false := by simpa using h4
  have e5 : (fc.name == "generate_video_from_webcam") = false := by simpa using h5
  have e6 : (fc.name == "generate_image") = false := by simpa using h6
  have e7 : (fc.name == "generate_speech") = false := by simpa using h7
  simp [resolveCall, resolveOut, generationOut, tryOperation, readyMessage,
    e1, e2, e3, e4, e5, e6, e7, hinit]

/-- C4 witness: the amended behaviour at a concrete unknown call. -/
theorem dispatcher_C4_unknown_ready_witness :
    resolveCall envW (snapshotOf st0) st0 ⟨some "7", "mystery_tool", {}⟩ "7"
      = ⟨⟨"7", "mystery_tool",
          .ready (requestId "mystery_tool" "7" 7) "Request completed successfully"⟩,
         { st0 with requestStates :=
             (mapSet (mapSet st0.requestStates (requestId "mystery_tool" "7" 7)
                 (pendingRec (requestId "mystery_tool" "7" 7)))
               (requestId "mystery_tool" "7" 7)
               (readyRec (requestId "mystery_tool" "7" 7) OpResult.undef)) },
         [.recordSet (requestId "mystery_tool" "7" 7) .pending,
          .recordSet (requestId "mystery_tool" "7" 7) .ready]⟩ :=
  dispatcher_C4_unknown_ready envW (snapshotOf st0) st0 ⟨some "7", "mystery_tool", {}⟩ "7"
    rfl (by decide) (by decide) (by decide) (by decide) (by decide) (by decide) (by decide)

/-- C3: the modelled `generateVideo` submits once, then performs exactly
one fixed 10-second wait followed by a re-poll for every "not yet
complete" report of the backend, stopping at the first "done"; it fails
with `GenerationFailed` exactly when the completed operation carries no
retrievable output reference, and otherwise returns that reference. -/
theorem mediaclient_C3_poll_until_done (p : Option String) (img : Option (String × String))
    (b : VideoBackendModel) :
    (generateVideoSpec p img b).1
        = VideoStep.submit
            :: (List.replicate b.pollsUntilDone [VideoStep.wait 10, VideoStep.poll]).flatten
    ∧ ((generateVideoSpec p img b).2 = .error .generationFailed ↔ b.output = none)
    ∧ (∀ u : String, (generateVideoSpec p img b).2 = .ok u ↔ b.output = some u) := by
  refine ⟨?_, ?_, ?_⟩
  · have hl : (videoPollLoop b.output b.pollsUntilDone).1
        = (List.replicate b.pollsUntilDone [VideoStep.wait 10, VideoStep.poll]).flatten := by
      induction b.pollsUntilDone with
      | zero => rfl
      | succ n ih => simp [videoPollLoop, List.replicate_succ, ih]
    show VideoStep.submit :: (videoPollLoop b.output b.pollsUntilDone).1 = _
    rw [hl]
  · show ((videoPollLoop b.output b.pollsUntilDone).2 = .error .generationFailed ↔ _)
    have hr : (videoPollLoop b.output b.pollsUntilDone).2
        = (match b.output with | some u => .ok u | none => .error .generationFailed) := by
      induction b.pollsUntilDone with
      | zero => rfl
      | succ n ih => simpa [videoPollLoop] using ih
    rw [hr]
    cases b.output <;> simp
  · intro u
    show ((videoPollLoop b.output b.pollsUntilDone).2 = .ok u ↔ _)
    have hr : (videoPollLoop b.output b.pollsUntilDone).2
        = (match b.output with | some w => .ok w | none => .error .generationFailed) := by
      induction b.pollsUntilDone with
      | zero => rfl
      | succ n ih => simpa [videoPollLoop] using ih
    rw [hr]
    cases b.output <;> simp

/-- C8 counterexample: the frame timer re-arms after `1000 / 0.5` = 2000
milliseconds — one frame every two seconds (0.5 frames per second) — not
after the 500 milliseconds a 2-frames-per-second cadence would need. -/
theorem controltray_C8_cex :
    videoFrameDelayMs = 2000 ∧ videoFrameDelayMs ≠ claimedTwoFpsDelayMs := by
  constructor <;> norm_num [videoFrameDelayMs, claimedTwoFpsDelayMs]

/-- C8 amended: while connected, every captured audio chunk is forwarded
to both the speaking and the function session, and audio capture runs
exactly when unmuted (muting suppresses audio forwarding only); every
captured video frame is likewise sent to both sessions by a path that does
not consult the mute flag at all; and the frame cadence is fixed at one
frame every 2000 milliseconds (0.5 frames per second), not 2 per second. -/
theorem controltray_C8_amended (b64 f : String) (w h : Nat) (muted : Bool)
    (hw : 0 < w + h) :
    onAudioData b64 = [("speaking", audioChunk b64), ("function", audioChunk b64)]
    ∧ audioRecorderActive true muted = !muted
    ∧ audioRecorderActive false muted = false
    ∧ (sendVideoFrame true w h f).1 = [("speaking", videoChunk f), ("function", videoChunk f)]
    ∧ (sendVideoFrame true w h f).2 = some videoFrameDelayMs
    ∧ videoFrameDelayMs = 2000 := by
  refine ⟨rfl, ?_, rfl, ?_, rfl, ?_⟩
  · cases muted <;> rfl
  · simp [sendVideoFrame, hw]
  · norm_num [videoFrameDelayMs]

/-- C8 witness: the amended statement at a concrete frame. -/
theorem controltray_C8_amended_witness :
    onAudioData "chunk" = [("speaking", audioChunk "chunk"), ("function", audioChunk "chunk")]
    ∧ audioRecorderActive true true = !true
    ∧ audioRecorderActive false true = false
    ∧ (sendVideoFrame true 160 120 "frame").1
        = [("speaking", videoChunk "frame"), ("function", videoChunk "frame")]
    ∧ (sendVideoFrame true 160 120 "frame").2 = some videoFrameDelayMs
    ∧ videoFrameDelayMs = 2000 :=
  controltray_C8_amended "chunk" "frame" 160 120 true (by norm_num)

theorem splitAtFirstComma_cons_ne (c : Char) (t : List Char) (hc : ¬ c = ',') :
    splitAtFirstComma (c :: t) = (splitAtFirstComma t).map (fun p => (c :: p.1, p.2)) := by
  rw [splitAtFirstComma, if_neg hc]
  cases splitAtFirstComma t with
  | none => rfl
  | some p => obtain ⟨a, b⟩ := p; rfl

theorem splitAtFirstComma_head_ne (c : Char) (t hh rr : List Char) (hc : ¬ c = ',')
    (h : splitAtFirstComma (c :: t) = some (hh, rr)) : hh.isEmpty = false := by
  rw [splitAtFirstComma_cons_ne c t hc] at h
  cases hx : splitAtFirstComma t with
  | none => rw [hx] at h; simp at h
  | some p =>
    obtain ⟨a, b⟩ := p
    rw [hx] at h
    have h2 : some ((c :: a, b) : List Char × List Char) = some (hh, rr) := h
    cases h2
    rfl

theorem parseImageArgL_eq_amendedL (l : List Char) :
    parseImageArgL l = dataUriDecodeAmendedL l := by
  unfold parseImageArgL dataUriDecodeAmendedL
  cases hp : dataPrefix.isPrefixOf l with
  | false => rfl
  | true =>
    cases hs : strictDataUriMatch l with
    | some mp => rfl
    | none =>
      cases hsp : splitAtFirstComma l with
      | none => rfl
      | some hr =>
        obtain ⟨hh, rr⟩ := hr
        have hpre : dataPrefix <+: l := by
          rw [← List.isPrefixOf_iff_prefix]; exact hp
        obtain ⟨t, ht⟩ := hpre
        have hd : l = 'd' :: ("ata:".data ++ t) := by rw [← ht]; rfl
        rw [hd] at hsp
        have hne : hh.isEmpty = false :=
          splitAtFirstComma_head_ne _ _ _ _ (by decide) hsp
        simp only [hne, cond_false]

/-- C6 counterexample: the claimed comma fallback and the claimed
default-to-jpeg arm do not hold for the decode in the code.  On `"abc,def"`
(a separator but no `data:` prefix) the claim extracts payload `"def"`
with no mime, while the code takes the whole string as payload with mime
`image/jpeg`; on `"data:abc"` (no separator) the claim defaults to
`image/jpeg` with the whole string as payload, while the code extracts
neither mime nor payload. -/
theorem parse_C6_cex :
    dataUriDecodeSpecS "abc,def" ≠ parseImageArg "abc,def"
    ∧ parseImageArg "abc,def" = (some "image/jpeg", some "abc,def")
    ∧ dataUriDecodeSpecS "abc,def" = (none, some "def")
    ∧ dataUriDecodeSpecS "data:abc" ≠ parseImageArg "data:abc"
    ∧ parseImageArg "data:abc" = (none, none)
    ∧ dataUriDecodeSpecS "data:abc" = (some "image/jpeg", some "data:abc") := by
  decide

/-- C6 amended: the two-stage decode runs only for strings starting with
`"data:"` — strict canonical match first, then the first-comma fallback,
with a `"data:"`-prefixed, comma-free string yielding neither mime nor
payload — while every string not starting with `"data:"`, separator or
not, is taken whole as already-decoded payload with mime `image/jpeg`;
the canonical example and the bare-payload example behave as claimed. -/
theorem parse_C6_amended :
    (∀ s : String, parseImageArg s = dataUriDecodeAmendedS s)
    ∧ parseImageArg "data:image/png;base64,QUJD" = (some "image/png", some "QUJD")
    ∧ parseImageArg "QUJD" = (some "image/jpeg", some "QUJD") := by
  refine ⟨?_, by decide, by decide⟩
  intro s
  unfold parseImageArg dataUriDecodeAmendedS
  rw [parseImageArgL_eq_amendedL]

theorem jsTruthyStr_none : jsTruthyStr none = none := rfl

theorem gvCall_id (cid p : String) : (gvCall cid p).id = some cid := rfl

theorem resolveCall_gv_error (env : MediaEnv) (snap : Snapshot) (st : OrchState)
    (cid p e : String)
    (hinit : env.mediaClientInitialized = true)
    (hg : env.generateVideo (some p) none none = .error e)
    (he : e ≠ "") :
    resolveCall env snap st (gvCall cid p) cid
      = ⟨⟨cid, "generate_video",
          .error (requestId "generate_video" cid env.now) e "Request failed"⟩,
         { st with isGeneratingMedia := false, generatingMediaType := none,
                   requestStates :=
             (mapSet (mapSet st.requestStates (requestId "generate_video" cid env.now)
                 (pendingRec (requestId "generate_video" cid env.now)))
               (requestId "generate_video" cid env.now)
               (errorRec (requestId "generate_video" cid env.now) e)) },
         [.recordSet (requestId "generate_video" cid env.now) .pending,
          .notify gvStartMsg, .videoGen,
          .recordSet (requestId "generate_video" cid env.now) .error,
          .notify (genFailMsg e)]⟩ := by
  have hee : (e == "") = false := by simpa using he
  simp [resolveCall, resolveOut, generationOut, tryOperation, gvCall,
    parsedImageArgs, jsTruthyStr_none, jsMessageOr, hinit, hg, hee]

theorem resolveCall_gv_ok_uri (env : MediaEnv) (snap : Snapshot) (st : OrchState)
    (cid p u : String) (r : VideoResult)
    (hinit : env.mediaClientInitialized = true)
    (hg : env.generateVideo (some p) none none = .ok r)
    (hu : jsTruthyStr r.uri = some u) :
    resolveCall env snap st (gvCall cid p) cid
      = ⟨⟨cid, "generate_video",
          .ready (requestId "generate_video" cid env.now)
            (readyMessage "generate_video" (.video r))⟩,
         { st with isGeneratingMedia := false, generatingMediaType := none,
                   lastGeneratedVideo := some ⟨u, none⟩,
                   requestStates :=
             (mapSet (mapSet st.requestStates (requestId "generate_video" cid env.now)
                 (pendingRec (requestId "generate_video" cid env.now)))
               (requestId "generate_video" cid env.now)
               (readyRec (requestId "generate_video" cid env.now) (.video r))) },
         [.recordSet (requestId "generate_video" cid env.now) .pending,
          .notify gvStartMsg, .videoGen, .notify gvReadyMsg,
          .recordSet (requestId "generate_video" cid env.now) .ready]⟩ := by
  simp [resolveCall, resolveOut, generationOut, tryOperation, gvCall,
    parsedImageArgs, jsTruthyStr_none, hinit, hg, hu]

theorem resolveCall_gv_ok_nouri (env : MediaEnv) (snap : Snapshot) (st : OrchState)
    (cid p : String) (r : VideoResult)
    (hinit : env.mediaClientInitialized = true)
    (hg : env.generateVideo (some p) none none = .ok r)
    (hu : jsTruthyStr r.uri = none) :
    resolveCall env snap st (gvCall cid p) cid
      = ⟨⟨cid, "generate_video",
          .ready (requestId "generate_video" cid env.now)
            (readyMessage "generate_video" (.video r))⟩,
         { st with isGeneratingMedia := true, generatingMediaType := some .video,
                   requestStates :=
             (mapSet (mapSet st.requestStates (requestId "generate_video" cid env.now)
                 (pendingRec (requestId "generate_video" cid env.now)))
               (requestId "generate_video" cid env.now)
               (readyRec (requestId "generate_video" cid env.now) (.video r))) },
         [.recordSet (requestId "generate_video" cid env.now) .pending,
          .notify gvStartMsg, .videoGen,
          .recordSet (requestId "generate_video" cid env.now) .ready]⟩ := by
  simp [resolveCall, resolveOut, generationOut, tryOperation, gvCall,
    parsedImageArgs, jsTruthyStr_none, hinit, hg, hu]

theorem runCalls_two (env : MediaEnv) (snap : Snapshot) (st : OrchState)
    (c1 c2 : FunctionCall) (cid1 cid2 : String)
    (h1 : c1.id = some cid1) (hc1 : (cid1 != "") = true)
    (h2 : c2.id = some cid2) (hc2 : (cid2 != "") = true) :
    runCalls env snap st [c1, c2]
      = ([(resolveCall env snap st c1 cid1).resp,
          (resolveCall env snap (resolveCall env snap st c1 cid1).st c2 cid2).resp],
         (resolveCall env snap (resolveCall env snap st c1 cid1).st c2 cid2).st,
         (resolveCall env snap st c1 cid1).events
           ++ (resolveCall env snap (resolveCall env snap st c1 cid1).st c2 cid2).events) := by
  simp [runCalls, h1, hc1, h2, hc2]

/-- C2: in a batch of two id-bearing generation calls where the backend
operation of the first throws and the second succeeds, the first call
ends with an `error` RequestRecord and an error entry carrying the thrown
message in the outgoing batch, while the sibling still gets its own
`status:"ready"` response and a `ready` record — the failure is isolated
to its own call and the batch is not rejected. -/
theorem dispatcher_C2_failure_isolation (env : MediaEnv) (st : OrchState)
    (p1 p2 cid1 cid2 e : String) (r : VideoResult)
    (hinit : env.mediaClientInitialized = true)
    (hne : cid1 ≠ cid2) (hc1 : cid1 ≠ "") (hc2 : cid2 ≠ "")
    (h1 : env.generateVideo (some p1) none none = .error e) (he : e ≠ "")
    (h2 : env.generateVideo (some p2) none none = .ok r) :
    ((onToolCall env st [gvCall cid1 p1, gvCall cid2 p2]).responses
      = [⟨cid1, "generate_video",
          .error (requestId "generate_video" cid1 env.now) e "Request failed"⟩,
         ⟨cid2, "generate_video",
          .ready (requestId "generate_video" cid2 env.now)
            (readyMessage "generate_video" (.video r))⟩])
    ∧ ((onToolCall env st [gvCall cid1 p1, gvCall cid2 p2]).finalState.requestStates.lookup
        (requestId "generate_video" cid1 env.now)
        = some (errorRec (requestId "generate_video" cid1 env.now) e))
    ∧ ((onToolCall env st [gvCall cid1 p1, gvCall cid2 p2]).finalState.requestStates.lookup
        (requestId "generate_video" cid2 env.now)
        = some (readyRec (requestId "generate_video" cid2 env.now) (.video r))) := by
  have hc1' : (cid1 != "") = true := by simpa using hc1
  have hc2' : (cid2 != "") = true := by simpa using hc2
  have hb : batchInitState st [gvCall cid1 p1, gvCall cid2 p2] = st := by
    simp [batchInitState, gvCall]
  have hrid : requestId "generate_video" cid1 env.now ≠ requestId "generate_video" cid2 env.now :=
    requestId_ne_of_cid_ne _ _ hne
  have hrun := runCalls_two env (snapshotOf st) st (gvCall cid1 p1) (gvCall cid2 p2) cid1 cid2
    (gvCall_id cid1 p1) hc1' (gvCall_id cid2 p2) hc2'
  have hout : onToolCall env st [gvCall cid1 p1, gvCall cid2 p2]
      = ⟨(runCalls env (snapshotOf st) st [gvCall cid1 p1, gvCall cid2 p2]).1,
         (runCalls env (snapshotOf st) st [gvCall cid1 p1, gvCall cid2 p2]).2.1,
         ((runCalls env (snapshotOf st) st [gvCall cid1 p1, gvCall cid2 p2]).2.2).map Event.call
           ++ [Event.send (runCalls env (snapshotOf st) st [gvCall cid1 p1, gvCall cid2 p2]).1]⟩ := by
    rw [onToolCall, batchRun, hb]
  rw [hout, hrun]
  rw [resolveCall_gv_error env (snapshotOf st) st cid1 p1 e hinit h1 he]
  rcases hu : jsTruthyStr r.uri with _ | u
  · rw [resolveCall_gv_ok_nouri env (snapshotOf st) _ cid2 p2 r hinit h2 hu]
    refine ⟨rfl, ?_, ?_⟩
    · show (mapSet (mapSet _ _ _) _ _).lookup _ = _
      rw [lookup_mapSet_ne _ _ _ _ hrid, lookup_mapSet_ne _ _ _ _ hrid, lookup_mapSet_self]
    · exact lookup_mapSet_self _ _ _
  · rw [resolveCall_gv_ok_uri env (snapshotOf st) _ cid2 p2 u r hinit h2 hu]
    refine ⟨rfl, ?_, ?_⟩
    · show (mapSet (mapSet _ _ _) _ _).lookup _ = _
      rw [lookup_mapSet_ne _ _ _ _ hrid, lookup_mapSet_ne _ _ _ _ hrid, lookup_mapSet_self]
    · exact lookup_mapSet_self _ _ _


/-- C2 witness: the failure-isolation behaviour at a concrete batch
against the `envW` backend (prompt `"bad"` throws `"boom"`). -/
theorem dispatcher_C2_failure_isolation_witness :
    ((onToolCall envW st0 [gvCall "1" "bad", gvCall "2" "ok"]).responses
      = [⟨"1", "generate_video",
          .error (requestId "generate_video" "1" 7) "boom" "Request failed"⟩,
         ⟨"2", "generate_video",
          .ready (requestId "generate_video" "2" 7)
            (readyMessage "generate_video"
              (.video { uri := some "http://video", url := some "http://url" }))⟩])
    ∧ ((onToolCall envW st0 [gvCall "1" "bad", gvCall "2" "ok"]).finalState.requestStates.lookup
        (requestId "generate_video" "1" 7)
        = some (errorRec (requestId "generate_video" "1" 7) "boom"))
    ∧ ((onToolCall envW st0 [gvCall "1" "bad", gvCall "2" "ok"]).finalState.requestStates.lookup
        (requestId "generate_video" "2" 7)
        = some (readyRec (requestId "generate_video" "2" 7)
            (.video { uri := some "http://video", url := some "http://url" }))) :=
  dispatcher_C2_failure_isolation envW st0 "bad" "ok" "1" "2" "boom"
    { uri := some "http://video", url := some "http://url" }
    rfl (by decide) (by decide) (by decide) rfl (by decide) rfl

theorem showVideoCall_id (cid : String) : (showVideoCall cid).id = some cid := rfl

theorem batchInitState_showVideo (st : OrchState) (cid : String) :
    batchInitState st [showVideoCall cid] = st := rfl

theorem runCalls_one (env : MediaEnv) (snap : Snapshot) (st : OrchState)
    (c : FunctionCall) (cid : String)
    (h : c.id = some cid) (hc : (cid != "") = true) :
    runCalls env snap st [c]
      = ([(resolveCall env snap st c cid).resp],
         (resolveCall env snap st c cid).st,
         (resolveCall env snap st c cid).events) := by
  simp [runCalls, h, hc]

theorem resolveCall_show_download (env : MediaEnv) (snap : Snapshot) (st : OrchState)
    (cid uri blob : String)
    (hsnap : snap.lastVideo = some ⟨uri, none⟩)
    (hdl : env.downloadVideo uri = .ok blob) :
    resolveCall env snap st (showVideoCall cid) cid
      = ⟨⟨cid, "show_media", .success (some "Video is now displayed on screen.")⟩,
         { st with lastGeneratedVideo := some ⟨uri, some blob⟩,
                   mediaDisplay := some ⟨.video, blob, true⟩, isLoadingMedia := false },
         [.download uri, .notify videoShownMsg]⟩ := by
  simp [resolveCall, resolveOut, showMediaOut, showVideoCall, hsnap, hdl]

theorem resolveCall_show_cached (env : MediaEnv) (snap : Snapshot) (st : OrchState)
    (cid uri blob : String)
    (hsnap : snap.lastVideo = some ⟨uri, some blob⟩) :
    resolveCall env snap st (showVideoCall cid) cid
      = ⟨⟨cid, "show_media", .success (some "Video is now displayed on screen.")⟩,
         { st with mediaDisplay := some ⟨.video, blob, true⟩, isLoadingMedia := false },
         [.notify videoShownMsg]⟩ := by
  simp [resolveCall, resolveOut, showMediaOut, showVideoCall, hsnap]

/-- C9: two consecutive single-call `show_media`(video) batches for the
same generated source uri invoke the blob download exactly once — the
first call downloads, caches the playback handle on the artifact and
displays it; the second call performs no download and reuses the cached
handle for the display. -/
theorem dispatcher_C9_download_once (env : MediaEnv) (st : OrchState)
    (uri blob cid1 cid2 : String)
    (hv : st.lastGeneratedVideo = some ⟨uri, none⟩)
    (hdl : env.downloadVideo uri = .ok blob)
    (hc1 : cid1 ≠ "") (hc2 : cid2 ≠ "") :
    downloadsOf (onToolCall env st [showVideoCall cid1]).events = [uri]
    ∧ (onToolCall env st [showVideoCall cid1]).finalState.lastGeneratedVideo
        = some ⟨uri, some blob⟩
    ∧ (onToolCall env st [showVideoCall cid1]).finalState.mediaDisplay
        = some ⟨.video, blob, true⟩
    ∧ downloadsOf (onToolCall env (onToolCall env st [showVideoCall cid1]).finalState
        [showVideoCall cid2]).events = []
    ∧ (onToolCall env (onToolCall env st [showVideoCall cid1]).finalState
        [showVideoCall cid2]).finalState.mediaDisplay = some ⟨.video, blob, true⟩ := by
  have hc1' : (cid1 != "") = true := by simpa using hc1
  have hc2' : (cid2 != "") = true := by simpa using hc2
  have hb1 := batchInitState_showVideo st cid1
  have hsnap1 : (snapshotOf st).lastVideo = some ⟨uri, none⟩ := hv
  have k1 : onToolCall env st [showVideoCall cid1]
      = ⟨[⟨cid1, "show_media", .success (some "Video is now displayed on screen.")⟩],
         { st with lastGeneratedVideo := some ⟨uri, some blob⟩,
                   mediaDisplay := some ⟨.video, blob, true⟩, isLoadingMedia := false },
         [.call (.download uri), .call (.notify videoShownMsg),
          .send [⟨cid1, "show_media", .success (some "Video is now displayed on screen.")⟩]]⟩ := by
    simp only [onToolCall, batchRun, hb1,
      runCalls_one env (snapshotOf st) st (showVideoCall cid1) cid1 (showVideoCall_id cid1) hc1',
      resolveCall_show_download env (snapshotOf st) st cid1 uri blob hsnap1 hdl]
    rfl
  rw [k1]
  have k2 : onToolCall env
      ({ st with lastGeneratedVideo := some ⟨uri, some blob⟩,
                 mediaDisplay := some ⟨.video, blob, true⟩, isLoadingMedia := false } : OrchState)
      [showVideoCall cid2]
      = ⟨[⟨cid2, "show_media", .success (some "Video is now displayed on screen.")⟩],
         { st with lastGeneratedVideo := some ⟨uri, some blob⟩,
                   mediaDisplay := some ⟨.video, blob, true⟩, isLoadingMedia := false },
         [.call (.notify videoShownMsg),
          .send [⟨cid2, "show_media", .success (some "Video is now displayed on screen.")⟩]]⟩ := by
    simp only [onToolCall, batchRun, batchInitState_showVideo]
    rw [runCalls_one env _ _ (showVideoCall cid2) cid2 (showVideoCall_id cid2) hc2']
    rw [resolveCall_show_cached env _ _ cid2 uri blob rfl]
    rfl
  rw [k2]
  refine ⟨?_, rfl, rfl, ?_, rfl⟩ <;> simp [downloadsOf]


/-- C9 witness: the caching behaviour at a concrete video artifact. -/
theorem dispatcher_C9_download_once_witness :
    downloadsOf (onToolCall envW stV [showVideoCall "s1"]).events = ["http://video"]
    ∧ (onToolCall envW stV [showVideoCall "s1"]).finalState.lastGeneratedVideo
        = some ⟨"http://video", some "blob:one"⟩
    ∧ (onToolCall envW stV [showVideoCall "s1"]).finalState.mediaDisplay
        = some ⟨.video, "blob:one", true⟩
    ∧ downloadsOf (onToolCall envW (onToolCall envW stV [showVideoCall "s1"]).finalState
        [showVideoCall "s2"]).events = []
    ∧ (onToolCall envW (onToolCall envW stV [showVideoCall "s1"]).finalState
        [showVideoCall "s2"]).finalState.mediaDisplay = some ⟨.video, "blob:one", true⟩ :=
  dispatcher_C9_download_once envW stV "http://video" "blob:one" "s1" "s2"
    rfl rfl (by decide) (by decide)

theorem recordTrace_tryOperation (env : MediaEnv) (st : OrchState) (fc : FunctionCall)
    (rid : String) : recordTrace (tryOperation env st fc).2.2 rid = [] := by
  unfold tryOperation
  cases hb1 : fc.name == "generate_video" with
  | true =>
    simp only [cond_true]
    cases hg : env.generateVideo fc.args.prompt (parsedImageArgs fc.args.imageBase64).1
        (parsedImageArgs fc.args.imageBase64).2 with
    | error e => simp [recordTrace]
    | ok r => cases hu : jsTruthyStr r.uri <;> simp [recordTrace, hu]
  | false =>
    simp only [cond_false]
    cases hb2 : fc.name == "generate_video_from_webcam" with
    | true =>
      simp only [cond_true]
      cases hf : jsTruthyStr env.captureFrame with
      | none => simp [recordTrace]
      | some frame =>
        cases hp : parseFrameDataURI frame with
        | error e => simp [recordTrace, hp]
        | ok bm =>
          obtain ⟨b64, mime⟩ := bm
          cases hg : env.generateVideo fc.args.prompt (some b64) (some mime) with
          | error e => simp [recordTrace, hp, hg]
          | ok r => cases hu : jsTruthyStr r.uri <;> simp [recordTrace, hp, hg, hu]
    | false =>
      simp only [cond_false]
      cases hb3 : fc.name == "generate_image" with
      | true =>
        simp only [cond_true]
        cases hg : env.generateImage fc.args.prompt with
        | error e => simp [recordTrace]
        | ok r => cases hu : jsTruthyStr (parseImageResponse r) <;> simp [recordTrace, hu]
      | false =>
        simp only [cond_false]
        cases hb4 : fc.name == "generate_speech" with
        | true =>
          simp only [cond_true]
          cases hg : env.generateSpeech fc.args.text <;> simp [recordTrace]
        | false => simp [recordTrace]

theorem generationOut_lifecycle (env : MediaEnv) (st : OrchState) (fc : FunctionCall)
    (cid : String) (hinit : env.mediaClientInitialized = true) :
    (recordTrace (generationOut env st fc cid).2.2 (requestId fc.name cid env.now)
        = [.pending, .ready]
      ∨ recordTrace (generationOut env st fc cid).2.2 (requestId fc.name cid env.now)
        = [.pending, .error])
    ∧ (generationOut env st fc cid).2.2.head?
        = some (.recordSet (requestId fc.name cid env.now) .pending)
    ∧ (∃ q : RequestState,
        ((generationOut env st fc cid).2.1.requestStates).lookup (requestId fc.name cid env.now)
          = some q
        ∧ q.requestId = requestId fc.name cid env.now
        ∧ (q.status = .ready ∨ q.status = .error)) := by
  have htr := recordTrace_tryOperation env
    { st with requestStates :=
        (mapSet st.requestStates (requestId fc.name cid env.now)
          (pendingRec (requestId fc.name cid env.now))) } fc (requestId fc.name cid env.now)
  unfold generationOut
  simp only [hinit]
  cases ht : tryOperation env
      { st with requestStates :=
          (mapSet st.requestStates (requestId fc.name cid env.now)
            (pendingRec (requestId fc.name cid env.now))) } fc with
  | mk r rest =>
    obtain ⟨st2, ev⟩ := rest
    rw [ht] at htr
    simp only at htr
    cases r with
    | ok res =>
      refine ⟨Or.inl ?_, rfl, ?_⟩
      · unfold recordTrace at htr ⊢
        simp [List.filterMap_cons, List.filterMap_append, htr]
      · exact ⟨readyRec (requestId fc.name cid env.now) res,
          lookup_mapSet_self _ _ _, rfl, Or.inl rfl⟩
    | error e =>
      refine ⟨Or.inr ?_, rfl, ?_⟩
      · unfold recordTrace at htr ⊢
        simp [List.filterMap_cons, List.filterMap_append, htr]
      · exact ⟨errorRec (requestId fc.name cid env.now) (jsMessageOr e "Unknown error"),
          lookup_mapSet_self _ _ _, rfl, Or.inr rfl⟩

/-- C5 amended: with the media client initialized, every dispatched
generation call creates its RequestRecord in pending state as the very
first action (before the operation starts), transitions it exactly once —
to ready or to error, never reverting — and retains it in the mapping
under `requestId = name_id_timestamp`; same-name calls with distinct ids
dispatched at one timestamp get distinct requestIds. -/
theorem dispatcher_C5_lifecycle (env : MediaEnv) (snap : Snapshot) (st : OrchState)
    (fc : FunctionCall) (cid : String)
    (hinit : env.mediaClientInitialized = true)
    (hname : fc.name = "generate_video" ∨ fc.name = "generate_video_from_webcam"
      ∨ fc.name = "generate_image" ∨ fc.name = "generate_speech") :
    (recordTrace (resolveCall env snap st fc cid).events (requestId fc.name cid env.now)
        = [.pending, .ready]
      ∨ recordTrace (resolveCall env snap st fc cid).events (requestId fc.name cid env.now)
        = [.pending, .error])
    ∧ (resolveCall env snap st fc cid).events.head?
        = some (.recordSet (requestId fc.name cid env.now) .pending)
    ∧ (∃ q : RequestState,
        ((resolveCall env snap st fc cid).st.requestStates).lookup (requestId fc.name cid env.now)
          = some q
        ∧ q.requestId = requestId fc.name cid env.now
        ∧ (q.status = .ready ∨ q.status = .error))
    ∧ (∀ c2 : String, c2 ≠ cid →
        requestId fc.name c2 env.now ≠ requestId fc.name cid env.now) := by
  have hg := generationOut_lifecycle env st fc cid hinit
  have hwrap : resolveCall env snap st fc cid
      = ⟨⟨cid, fc.name, (generationOut env st fc cid).1⟩,
         (generationOut env st fc cid).2.1, (generationOut env st fc cid).2.2⟩ := by
    rcases hname with h | h | h | h <;> simp [resolveCall, resolveOut, h]
  rw [hwrap]
  exact ⟨hg.1, hg.2.1, hg.2.2, fun c2 hne => requestId_ne_of_cid_ne fc.name env.now hne⟩

/-- C5 counterexample: requestIds are not unique within the process
lifetime — the underscore concatenation collides for distinct
(name, call-id) pairs at one timestamp, so a batch of two such dispatched
calls produces two responses but a single surviving record; and with the
media client uninitialized a dispatched generation call is answered with
an error response while its record never leaves pending, so it does not
transition exactly once to ready or error. -/
theorem dispatcher_C5_cex :
    requestId "a" "b_c" 7 = requestId "a_b" "c" 7
    ∧ (("a", "b_c") : String × String) ≠ ("a_b", "c")
    ∧ (onToolCall envW st0 [⟨some "b_c", "a", {}⟩, ⟨some "c", "a_b", {}⟩]).responses.length = 2
    ∧ (onToolCall envW st0
        [⟨some "b_c", "a", {}⟩, ⟨some "c", "a_b", {}⟩]).finalState.requestStates.length = 1
    ∧ ((onToolCall envNoClient st0 [gvCall "1" "p"]).finalState.requestStates.lookup
        (requestId "generate_video" "1" 0)).map (fun q => q.status)
        = some .pending
    ∧ (onToolCall envNoClient st0 [gvCall "1" "p"]).responses
        = [⟨"1", "generate_video",
            .error (requestId "generate_video" "1" 0) "MediaClient not initialized" "Request failed"⟩] := by
  decide


/-- C5 witness: the amended lifecycle at a concrete `generate_speech`
call. -/
theorem dispatcher_C5_lifecycle_witness :
    (recordTrace (resolveCall envW (snapshotOf st0) st0
          ⟨some "9", "generate_speech", { text := some "hi" }⟩ "9").events
        (requestId "generate_speech" "9" 7) = [.pending, .ready]
      ∨ recordTrace (resolveCall envW (snapshotOf st0) st0
          ⟨some "9", "generate_speech", { text := some "hi" }⟩ "9").events
        (requestId "generate_speech" "9" 7) = [.pending, .error])
    ∧ (resolveCall envW (snapshotOf st0) st0
        ⟨some "9", "generate_speech", { text := some "hi" }⟩ "9").events.head?
        = some (.recordSet (requestId "generate_speech" "9" 7) .pending)
    ∧ (∃ q : RequestState,
        ((resolveCall envW (snapshotOf st0) st0
            ⟨some "9", "generate_speech", { text := some "hi" }⟩ "9").st.requestStates).lookup
          (requestId "generate_speech" "9" 7) = some q
        ∧ q.requestId = requestId "generate_speech" "9" 7
        ∧ (q.status = .ready ∨ q.status = .error))
    ∧ (∀ c2 : String, c2 ≠ "9" →
        requestId "generate_speech" c2 7 ≠ requestId "generate_speech" "9" 7) :=
  dispatcher_C5_lifecycle envW (snapshotOf st0) st0
    ⟨some "9", "generate_speech", { text := some "hi" }⟩ "9" rfl
    (Or.inr (Or.inr (Or.inr rfl)))

end BerlinHack
